import Mathlib

/-!
Shallow embedding of the `syntropiq/openapi-codegen` repository: an
OpenAPI-to-TypeScript stub generator for Cloudflare Workers.

Embedded from the source:
  * `src/utils/string-utils.ts` — identifier sanitisation;
  * `src/generator/index.ts` — the `Generator` class (`generateFromYaml`,
    `enhanceWithAI`, `callAIAPI`, `generateBasicStub`);
  * `src/generator/parser.ts` — `parseOpenApiYaml`'s validity check;
  * `src/utils/file-utils.ts` — `writeGeneratedFiles`'s sequential write loop;
  * `examples/enhanced-worker.ts` — the aggregator worker (auth, rate
    limiting, `routeRequest`).

JavaScript strings are modelled as Lean `String` (one `Char` per UTF-16
unit is immaterial here), JavaScript object key order as ordered
association lists (JS objects preserve insertion order), thrown
exceptions as `Except`, the mutable filesystem and the module-level rate
limit map as explicit state threaded through the functions that touch
them, and `Date.now` / the external network as explicit parameters.
-/

namespace OpenapiCodegen

/-! ### String utilities (`src/utils/string-utils.ts`) -/

/-- Character class of the JS regex `[a-zA-Z0-9_]` used by `sanitizeIdentifier`. -/
def isIdentChar (c : Char) : Bool :=
  (('a' ≤ c && c ≤ 'z') || ('A' ≤ c && c ≤ 'Z') || ('0' ≤ c && c ≤ '9') || c = '_')

/-- Character class of the JS regex `\d` (ASCII digits). -/
def isDigitChar (c : Char) : Bool :=
  ('0' ≤ c && c ≤ '9')

/-- First `replace` of `sanitizeIdentifier`: `[^a-zA-Z0-9_]` to `_`, globally. -/
def mapIdent (l : List Char) : List Char :=
  l.map (fun c => if isIdentChar c then c else '_')

/-- Second `replace` of `sanitizeIdentifier`: `^(\d)` to `_$1` — a `_` put
before a leading digit. -/
def guardLeadingDigit : List Char → List Char
  | [] => []
  | c :: rest => if isDigitChar c then '_' :: c :: rest else c :: rest

/-- Third `replace` of `sanitizeIdentifier`: `^$` to `_empty` — only the
empty string is changed. -/
def fillEmpty : List Char → List Char
  | [] => ['_', 'e', 'm', 'p', 't', 'y']
  | c :: rest => c :: rest

/-- Core of `sanitizeIdentifier`, over the character list: the three chained
`replace` calls of the source, in source order. -/
def sanitizeChars (l : List Char) : List Char :=
  fillEmpty (guardLeadingDigit (mapIdent l))

/-- Embedding of `sanitizeIdentifier` from `src/utils/string-utils.ts`. -/
def sanitizeIdentifier (name : String) : String :=
  String.mk (sanitizeChars name.data)

/-! ### The `Generator` class (`src/generator/index.ts`) -/

/-- Embedding of `Config` from `src/config/types.ts`. -/
structure Config where
  apiUrl : String
  apiKey : String
  outputDir : String
  generateCloudflareWorker : Bool
deriving Repr, DecidableEq

/-- Fixed template pieces of `generateBasicStub`, split around the three
interpolations of `operationId` in the source template literal. -/
def stubPartA : String := "\n// TODO: Implement "

/-- Template text between the first and second `operationId` interpolation. -/
def stubPartB : String := "\nexport async function "

/-- Template text between the second and third `operationId` interpolation. -/
def stubPartC : String :=
  "(request: Request): Promise<Response> \x7b\n  // Add your business logic here\n  return new Response(JSON.stringify(\x7b \n    message: \"Not implemented\", \n    operation: \""

/-- Template text after the last `operationId` interpolation. -/
def stubPartD : String :=
  "\" \n  \x7d), \x7b\n    status: 501,\n    headers: \x7b \"Content-Type\": \"application/json\" \x7d\n  \x7d);\n\x7d"

/-- Embedding of `Generator.generateBasicStub`: the placeholder handler text
for one operation, with `operationId` interpolated three times. -/
def generateBasicStub (operationId : String) : String :=
  stubPartA ++ operationId ++ stubPartB ++ operationId ++ stubPartC ++ operationId ++ stubPartD

/-- Outcome of the external AI network call awaited by `callAIAPI`: the fetch
either rejects / returns a non-ok status (`fail`, carrying the error text), or
returns ok with `choices[0].message.content` present (`okContent`), or returns
ok with that field absent (`okNoContent`). -/
inductive AIOutcome where
  | fail (msg : String)
  | okContent (content : String)
  | okNoContent
deriving Repr, DecidableEq

/-- Embedding of `Generator.callAIAPI`: a non-ok response throws; an ok
response yields `data.choices?.[0]?.message?.content` or, when that is
missing, `generateBasicStub('unknown')` via the `||` fallback. -/
def callAIAPI (outcome : AIOutcome) : Except String String :=
  match outcome with
  | .fail msg => .error msg
  | .okContent content => .ok content
  | .okNoContent => .ok (generateBasicStub "unknown")

/-- Embedding of `Generator.enhanceWithAI`: with no usable API key the basic
stub is returned directly; otherwise the AI call is awaited inside
`try`/`catch` and any thrown error is converted to the basic stub for the
requested `operationId`. Total by construction: it never throws. -/
def enhanceWithAI (config : Config) (operationId : String) (outcome : AIOutcome) : String :=
  if config.apiKey = "" ∨ config.apiKey = "your-api-key-here" then
    generateBasicStub operationId
  else
    match callAIAPI outcome with
    | .error _ => generateBasicStub operationId
    | .ok enhancedCode => enhancedCode

/-- Response value returned by a generated placeholder handler (status and
body; headers elided). -/
structure StubResponse where
  status : Nat
  body : String
deriving Repr, DecidableEq

/-- Request value seen by a generated handler; the placeholder body never
inspects it, so it is kept opaque. -/
structure StubRequest where
  url : String
  method : String
deriving Repr, DecidableEq

/-- Execution semantics of the placeholder handler text produced by
`generateBasicStub`: on any request it builds the `JSON.stringify` body
carrying the operation id and returns it with status 501. JSON string
escaping of the id is elided (operation ids are identifier-like). -/
def stubHandler (operationId : String) (_request : StubRequest) : StubResponse :=
  { status := 501
    body := "\x7b\"message\":\"Not implemented\",\"operation\":\"" ++ operationId ++ "\"\x7d" }

/-! ### Parsed document model (`src/config/types.ts`) -/

/-- Schema fragment as parsed, mirroring the `Schema` interface of
`src/config/types.ts` (type keyword, properties, items, required, enum,
`$ref`, composition keywords), with JS object key order kept as list order. -/
inductive RawSchema where
  | refNode (pointer : String)
  | objectNode (properties : List (String × RawSchema)) (required : List String)
  | arrayNode (items : List RawSchema)
  | primitiveNode (ty : String) (fmt : Option String)
  | enumNode (values : List String)
  | allOfNode (members : List RawSchema)
  | oneOfNode (members : List RawSchema)
  | anyOfNode (members : List RawSchema)
  | unknownNode

/-- Embedding of the `Parameter` interface (`name`, `in`, `required`, `schema`). -/
structure Param where
  name : String
  loc : String
  required : Bool
  schema : Option RawSchema

/-- Embedding of the `Operation` interface, keeping the fields the engine
walks: `operationId`, `tags`, `parameters`, `requestBody` schema and the
per-status response schemas. -/
structure Operation where
  operationId : Option String
  tags : List String
  parameters : List Param
  requestBody : Option RawSchema
  responses : List (String × Option RawSchema)

/-- Embedding of the `components` section: named schemas plus the names of
declared security schemes. -/
structure Components where
  schemas : List (String × RawSchema)
  securitySchemes : List String

/-- Embedding of the `OpenAPISpec` interface: top-level `openapi` marker
(absent = field missing from the YAML), info fields, `paths` as an ordered
path-template-to-methods map, and optional `components`. -/
structure OpenAPIDoc where
  openapi : Option String
  infoTitle : String
  infoVersion : String
  paths : List (String × List (String × Operation))
  components : Option Components

/-! ### Parse boundary (`src/generator/parser.ts`) -/

/-- Error taxonomy of a generation run (spec §7), plus the wrapped message of
a failed file write. -/
inductive GenError where
  | parseError (msg : String)
  | brokenReference (pointer : String)
  | unsupportedReference (pointer : String)
  | writeError (msg : String)
deriving Repr, DecidableEq

/-- Embedding of `parseOpenApiYaml` from `src/generator/parser.ts`, taking the
result of the external `yaml.load` collaborator (`none` = load produced
null/undefined).  The JS guard `!parsedData || !parsedData.openapi` throws
when the document is missing or its `openapi` field is absent or the empty
string (JS falsiness); otherwise the parsed document is returned unchanged. -/
def parseOpenApiYaml (parsed : Option OpenAPIDoc) : Except GenError OpenAPIDoc :=
  match parsed with
  | none => .error (.parseError "Invalid OpenAPI YAML file: Missing required fields.")
  | some d =>
    match d.openapi with
    | none => .error (.parseError "Invalid OpenAPI YAML file: Missing required fields.")
    | some v =>
      if v = "" then .error (.parseError "Invalid OpenAPI YAML file: Missing required fields.")
      else .ok d

/-! ### Reference collection and resolution

Modelled from the spec: the repository imports `generateTypes`
(`./types-generator`) and `generateStubs` (`./stubs-generator`) in
`src/generator/index.ts`, but those two modules are not present under `src/`;
the definitions below model the Reference Resolver and the two emitters from
spec §4.1–§4.5. -/

mutual

/-- Modelled from the spec: references occurring syntactically in a schema
tree, in declaration order (spec §4.1 resolves each such `$ref`). -/
def collectRefs : RawSchema → List String
  | .refNode pointer => [pointer]
  | .objectNode properties _ => collectRefsProps properties
  | .arrayNode items => collectRefsList items
  | .primitiveNode _ _ => []
  | .enumNode _ => []
  | .allOfNode members => collectRefsList members
  | .oneOfNode members => collectRefsList members
  | .anyOfNode members => collectRefsList members
  | .unknownNode => []

/-- References of a list of schemas, in order. -/
def collectRefsList : List RawSchema → List String
  | [] => []
  | s :: rest => collectRefs s ++ collectRefsList rest

/-- References of an ordered property map, in order. -/
def collectRefsProps : List (String × RawSchema) → List String
  | [] => []
  | (_, s) :: rest => collectRefs s ++ collectRefsProps rest

end

/-- Schemas attached to one operation, in walk order: parameter schemas, the
request body, then response schemas by declared status. -/
def operationSchemas (op : Operation) : List RawSchema :=
  (op.parameters.filterMap (fun p => p.schema))
    ++ (match op.requestBody with | some s => [s] | none => [])
    ++ (op.responses.filterMap (fun r => r.2))

/-- Modelled from the spec: every reference reachable from `paths` or
`components.schemas` (spec §8 reference-integrity property), in declaration
order — paths first, then component schemas. -/
def collectDocRefs (doc : OpenAPIDoc) : List String :=
  (doc.paths.flatMap (fun pathEntry =>
      pathEntry.2.flatMap (fun methodEntry => collectRefsList (operationSchemas methodEntry.2))))
    ++ (match doc.components with
        | some comps => collectRefsProps comps.schemas
        | none => [])

/-- Ordered association-list lookup (JS object property access). -/
def alistLookup (key : String) : List (String × RawSchema) → Option RawSchema
  | [] => none
  | (k, v) :: rest => if k = key then some v else alistLookup key rest

/-- Character-list split on `/`, matching JS `String.prototype.split('/')`. -/
def splitOnSlash : List Char → List (List Char)
  | [] => [[]]
  | c :: rest =>
    let r := splitOnSlash rest
    if c = '/' then [] :: r
    else match r with
      | s :: ss => (c :: s) :: ss
      | [] => [[c]]

/-- Split a string on `/` (JS `split('/')` semantics). -/
def splitSlash (s : String) : List String :=
  (splitOnSlash s.data).map String.mk

/-- JS truthiness test used with `.filter(Boolean)` on split segments. -/
def isNonEmptySeg (s : String) : Bool := s ≠ ""

/-- Whether a reference pointer is intra-document (starts with `#`);
everything else is an external-file reference (spec §4.1). -/
def isIntraDocument (pointer : String) : Bool :=
  match pointer.data with
  | '#' :: _ => true
  | _ => false

/-- Modelled from the spec: `resolve(root, ref)` of §4.1.  External-file
references fail with `UnsupportedReference`; an intra-document pointer is
followed segment by segment — `#/components/schemas/N` resolves to the
declared schema `N`, `#/components/securitySchemes/N` to a declared security
scheme (returned as an opaque node), and any missing segment or undeclared
target fails with `BrokenReference` carrying the offending pointer. -/
def resolveRef (doc : OpenAPIDoc) (pointer : String) : Except GenError RawSchema :=
  if isIntraDocument pointer then
    match splitSlash pointer with
    | ["#", "components", "schemas", name] =>
      (match doc.components with
       | some comps =>
         (match alistLookup name comps.schemas with
          | some s => .ok s
          | none => .error (.brokenReference pointer))
       | none => .error (.brokenReference pointer))
    | ["#", "components", "securitySchemes", name] =>
      (match doc.components with
       | some comps =>
         if name ∈ comps.securitySchemes then .ok .unknownNode
         else .error (.brokenReference pointer)
       | none => .error (.brokenReference pointer))
    | _ => .error (.brokenReference pointer)
  else .error (.unsupportedReference pointer)

/-- Modelled from the spec: resolve every collected reference in order,
stopping at the first failure (spec §3 invariant: every reference resolves to
exactly one node or generation fails). -/
def checkRefList (doc : OpenAPIDoc) : List String → Except GenError Unit
  | [] => .ok ()
  | pointer :: rest =>
    match resolveRef doc pointer with
    | .error e => .error e
    | .ok _ => checkRefList doc rest

/-- Resolve every reference reachable from the document. -/
def checkDocRefs (doc : OpenAPIDoc) : Except GenError Unit :=
  checkRefList doc (collectDocRefs doc)

/-! ### Emitters (modelled from spec §4.4–§4.5 and `generateFromYaml`) -/

/-- Embedding of `GeneratedFile` from `src/config/types.ts`
(the spec's `GeneratedArtifact`: relative path, content, description). -/
structure GeneratedFile where
  path : String
  content : String
  description : String
deriving Repr, DecidableEq

/-- Modelled from the spec: deterministic rendering of the type-declarations
artifact, one declaration per `components.schemas` entry in declaration order
(spec §4.4); declaration identifiers are sanitised schema names. -/
def renderTypes (doc : OpenAPIDoc) : String :=
  (match doc.components with
   | some comps =>
     comps.schemas.foldl
       (fun acc entry => acc ++ "export interface " ++ sanitizeIdentifier entry.1 ++ " \x7b\x7d\n")
       ""
   | none => "")

/-- Modelled from the spec: `generateTypes` (`./types-generator`, absent from
`src/`) resolves every reachable reference, failing generation on the first
broken or unsupported one, then renders the single type-declarations
artifact. -/
def generateTypes (doc : OpenAPIDoc) : Except GenError GeneratedFile :=
  match checkDocRefs doc with
  | .error e => .error e
  | .ok _ => .ok { path := "types.ts", content := renderTypes doc, description := "TypeScript types" }

/-- Modelled from the spec: grouping key of one operation (spec §4.5 — first
path segment when present and non-empty, else the operation's first tag,
with the aggregator's `"root"` default when neither exists). -/
def groupKey (pathTemplate : String) (op : Operation) : String :=
  match (splitSlash pathTemplate).filter isNonEmptySeg with
  | seg :: _ => seg
  | [] =>
    match op.tags with
    | tag :: _ => tag
    | [] => "root"

/-- First-seen-order deduplication (JS object/Map key semantics). -/
def dedupKeys : List String → List String → List String
  | [], _ => []
  | k :: rest, seen => if k ∈ seen then dedupKeys rest seen else k :: dedupKeys rest (k :: seen)

/-- Modelled from the spec: route-group names of a document, in declaration
order of the operations that introduce them. -/
def routeGroups (doc : OpenAPIDoc) : List String :=
  dedupKeys
    (doc.paths.flatMap (fun pathEntry =>
      pathEntry.2.map (fun methodEntry => groupKey pathEntry.1 methodEntry.2)))
    []

/-- Placeholder body text of all operations of one group, in declaration
order, using the source's `generateBasicStub` template. -/
def groupStubText (doc : OpenAPIDoc) (group : String) : String :=
  (doc.paths.flatMap (fun pathEntry =>
      pathEntry.2.filterMap (fun methodEntry =>
        if groupKey pathEntry.1 methodEntry.2 = group then
          some (generateBasicStub ((methodEntry.2.operationId).getD "unknown"))
        else none))).foldl (fun acc s => acc ++ s) ""

/-- Modelled from the spec: `generateStubs` (`./stubs-generator`, absent from
`src/`) emits one dispatcher artifact per route group plus the distinguished
aggregator artifact, in group declaration order (spec §4.5, §6). -/
def generateStubs (doc : OpenAPIDoc) : List GeneratedFile :=
  ((routeGroups doc).map (fun group =>
    { path := group ++ "_worker.ts"
      content := groupStubText doc group
      description := "Cloudflare Worker stub for " ++ group }))
    ++ [{ path := "worker.ts"
          content := (routeGroups doc).foldl (fun acc g => acc ++ "import " ++ g ++ ";\n") ""
          description := "Main aggregator worker" }]

/-- Artifact assembly of `Generator.generateFromYaml`: the types artifact
followed by the stub artifacts (`const allFiles = [typesFile, ...stubFiles]`),
or the first fatal error. -/
def generateArtifacts (doc : OpenAPIDoc) : Except GenError (List GeneratedFile) :=
  match generateTypes doc with
  | .error e => .error e
  | .ok typesFile => .ok (typesFile :: generateStubs doc)

/-! ### File writing (`src/utils/file-utils.ts`) -/

/-- Filesystem state observable after a run: the written files, in write
order, as (full path, content) pairs. -/
abbrev FS : Type := List (String × String)

/-- Embedding of `writeGeneratedFiles`: the files are written one by one in
order (`for (const file of files) await writeFile(...)`); a failing write
throws, aborting the loop, with every earlier write already performed.  The
`writeOk` oracle says which full paths the external filesystem accepts. -/
def writeGeneratedFiles (writeOk : String → Bool) (outputDir : String)
    : List GeneratedFile → FS → Except String Unit × FS
  | [], fs => (.ok (), fs)
  | file :: rest, fs =>
    let fullPath := outputDir ++ "/" ++ file.path
    if writeOk fullPath then
      writeGeneratedFiles writeOk outputDir rest (fs ++ [(fullPath, file.content)])
    else (.error ("Error writing file at " ++ fullPath), fs)

/-- Embedding of `Generator.generateFromYaml` on the already-loaded document:
parse check, type generation, stub generation, then the write loop; any
thrown error is re-thrown (`catch ... throw error`) and the artifact list is
returned on success. -/
def generateFromYaml (writeOk : String → Bool) (outputDir : String)
    (parsed : Option OpenAPIDoc) (fs : FS) : Except GenError (List GeneratedFile) × FS :=
  match parseOpenApiYaml parsed with
  | .error e => (.error e, fs)
  | .ok spec =>
    match generateArtifacts spec with
    | .error e => (.error e, fs)
    | .ok allFiles =>
      match writeGeneratedFiles writeOk outputDir allFiles fs with
      | (.ok _, fs') => (.ok allFiles, fs')
      | (.error msg, fs') => (.error (.writeError msg), fs')

/-- One full run from the raw input text: the external `yaml.load`
collaborator (a pure function of the input bytes) followed by
`generateFromYaml`. -/
def generateRun (writeOk : String → Bool) (outputDir : String)
    (yamlLoad : String → Option OpenAPIDoc) (input : String) (fs : FS)
    : Except GenError (List GeneratedFile) × FS :=
  generateFromYaml writeOk outputDir (yamlLoad input) fs

/-- Ordered relative-path list of a run's artifact set (empty on failure). -/
def artifactPaths (r : Except GenError (List GeneratedFile)) : List String :=
  match r with
  | .ok files => files.map (fun f => f.path)
  | .error _ => []

/-- Ordered content list of a run's artifact set (empty on failure). -/
def artifactContents (r : Except GenError (List GeneratedFile)) : List String :=
  match r with
  | .ok files => files.map (fun f => f.content)
  | .error _ => []

/-! ### Enhanced aggregator worker (`examples/enhanced-worker.ts`) -/

/-- Embedding of the worker's `Env` interface; `none` or `some ""` model a
variable that is unset or empty (both falsy in the JS checks). -/
structure WEnv where
  apiKey : Option String
  allowedOrigins : Option String
  rateLimitPerMinute : Option String
  debug : Option String
deriving Repr, DecidableEq

/-- Incoming request as the worker reads it: method, URL pathname, the
`Authorization` header and the `CF-Connecting-IP`-derived client IP. -/
structure WRequest where
  method : String
  pathname : String
  authHeader : Option String
  clientIP : String
deriving Repr, DecidableEq

/-- Response body at the granularity the embedding tracks: which branch of
the worker produced the response and the data that branch serialises.  The
JSON rendering itself (and the uuid/timestamp fields of the health body) is
elided. -/
inductive WBody where
  | corsEmpty
  | health
  | authError (msg : String)
  | rateLimited (retryAfter : Nat)
  | notFoundRoutes (availableRoutes : List String)
  | handled (tag : String)
deriving Repr, DecidableEq

/-- Response value: status code plus the branch body. -/
structure WResponse where
  status : Nat
  body : WBody
deriving Repr, DecidableEq

/-- The module-level `rateLimitStore` map: key to (count, resetTime), in
insertion order (JS `Map` iteration order). -/
abbrev RateStore : Type := List (String × Nat × Nat)

/-- JS `Map.get`. -/
def storeGet (key : String) : RateStore → Option (Nat × Nat)
  | [] => none
  | (k, v) :: rest => if k = key then some v else storeGet key rest

/-- JS `Map.set`: replaces in place when the key exists, appends otherwise. -/
def storeSet (key : String) (v : Nat × Nat) : RateStore → RateStore
  | [] => [(key, v)]
  | (k, w) :: rest => if k = key then (key, v) :: rest else (k, w) :: storeSet key v rest

/-- JS `parseInt` on the decimal strings the worker feeds it: the value of
the leading digit run, or `none` (NaN) when the string starts with no digit. -/
def parseIntLeading (s : String) : Option Nat :=
  match s.data with
  | c :: _ =>
    if isDigitChar c then
      some ((s.data.takeWhile isDigitChar).foldl (fun acc d => acc * 10 + (d.toNat - 48)) 0)
    else none
  | [] => none

/-- Embedding of `cleanupRateLimit`: entries whose `resetTime` is below
`now - windowMs` are deleted. -/
def cleanupRateLimit (now : Nat) (store : RateStore) : RateStore :=
  store.filter (fun e => !(e.2.2 < now - 60000))

/-- Key of the client's current rate window, `` `${clientIP}:${windowStart}` ``. -/
def windowKeyOf (clientIP : String) (now : Nat) : String :=
  clientIP ++ ":" ++ toString (now / 60000 * 60000)

/-- Embedding of `checkRateLimit`: `some retryAfter` denies (store untouched —
the source returns before `set`), `none` allows after incrementing the
window counter and cleaning old entries.  `parseInt` yielding NaN makes the
`count >= limit` comparison false, so the request is always allowed then. -/
def checkRateLimit (clientIP : String) (env : WEnv) (now : Nat) (store : RateStore)
    : Option Nat × RateStore :=
  let limit := parseIntLeading ((env.rateLimitPerMinute).getD "60")
  let windowStart := now / 60000 * 60000
  let key := windowKeyOf clientIP now
  let current := (storeGet key store).getD (0, windowStart + 60000)
  let deny : Bool := match limit with
    | some l => current.1 ≥ l
    | none => false
  if deny then (some ((current.2 - now + 999) / 1000), store)
  else (none, cleanupRateLimit now (storeSet key (current.1 + 1, current.2) store))

/-- Embedding of `validateAuth`: `some msg` is the 401 error, `none` is
valid.  The health-path early return is handled before this in `fetch`. -/
def validateAuth (req : WRequest) (env : WEnv) : Option String :=
  if req.pathname = "/health" ∨ req.pathname = "/health/" then none
  else
    match req.authHeader with
    | none => some "Authorization header required"
    | some header =>
      if !(header.data.take 7 = "Bearer ".data) then some "Invalid authorization format"
      else if header.data.drop 7 = [] then some "Missing API key"
      else if (env.apiKey).getD "" = "" then some "API key not configured"
      else none

/-- The 18 route names of the `switch` in `routeRequest`, in source order —
also the `availableRoutes` list of its 404 body. -/
def knownRoutes : List String :=
  ["assistants", "audio", "batches", "chat", "completions",
   "embeddings", "evals", "files", "fine_tuning", "images",
   "models", "moderations", "organization", "realtime",
   "responses", "threads", "uploads", "vector_stores"]

/-- What `routeRequest` decides: forward to one group's worker, or answer 404
with the available route names. -/
inductive RouteDecision where
  | forward (group : String)
  | notFound (availableRoutes : List String)
deriving Repr, DecidableEq

/-- First path segment as `routeRequest` computes it:
`url.pathname.split("/").filter(Boolean)[0] || "root"`. -/
def firstSeg (pathname : String) : String :=
  match (splitSlash pathname).filter isNonEmptySeg with
  | seg :: _ => seg
  | [] => "root"

/-- The `switch (routePrefix)` of `routeRequest`, case by case. -/
def routeDecide (seg : String) : RouteDecision :=
  if seg = "assistants" then .forward "assistants"
  else if seg = "audio" then .forward "audio"
  else if seg = "batches" then .forward "batches"
  else if seg = "chat" then .forward "chat"
  else if seg = "completions" then .forward "completions"
  else if seg = "embeddings" then .forward "embeddings"
  else if seg = "evals" then .forward "evals"
  else if seg = "files" then .forward "files"
  else if seg = "fine_tuning" then .forward "fine_tuning"
  else if seg = "images" then .forward "images"
  else if seg = "models" then .forward "models"
  else if seg = "moderations" then .forward "moderations"
  else if seg = "organization" then .forward "organization"
  else if seg = "realtime" then .forward "realtime"
  else if seg = "responses" then .forward "responses"
  else if seg = "threads" then .forward "threads"
  else if seg = "uploads" then .forward "uploads"
  else if seg = "vector_stores" then .forward "vector_stores"
  else .notFound knownRoutes

/-- Embedding of `routeRequest`: dispatch on the first path segment only. -/
def routeRequest (pathname : String) : RouteDecision :=
  routeDecide (firstSeg pathname)

/-- Embedding of the enhanced worker's `fetch`: CORS preflight, health check,
auth validation, rate limiting against the module-level store, then
`routeRequest`; a forwarded request is answered by the group worker
(`dispatch`, a parameter — the group workers are generated artifacts).
`enhanceResponse` only adds headers, which the body model elides.  Returns
the response and the rate store left behind for the next invocation. -/
def workerFetch (dispatch : String → WRequest → WResponse)
    (req : WRequest) (env : WEnv) (now : Nat) (store : RateStore)
    : WResponse × RateStore :=
  if req.method = "OPTIONS" then ({ status := 204, body := .corsEmpty }, store)
  else if req.pathname = "/health" ∨ req.pathname = "/health/" then
    ({ status := 200, body := .health }, store)
  else
    match validateAuth req env with
    | some msg => ({ status := 401, body := .authError msg }, store)
    | none =>
      match checkRateLimit req.clientIP env now store with
      | (some retryAfter, store') => ({ status := 429, body := .rateLimited retryAfter }, store')
      | (none, store') =>
        match routeRequest req.pathname with
        | .forward group => (dispatch group req, store')
        | .notFound routes => ({ status := 404, body := .notFoundRoutes routes }, store')

/-! ### Concrete values used to instantiate the theorems -/

/-- A `chat` operation, `POST /chat/completions`. -/
def opCreateChat : Operation :=
  { operationId := some "createChatCompletion"
    tags := ["chat"]
    parameters := []
    requestBody := none
    responses := [] }

/-- A minimal valid document: one `chat` operation, no references. -/
def docMinimal : OpenAPIDoc :=
  { openapi := some "3.0.0"
    infoTitle := "Test API"
    infoVersion := "1.0.0"
    paths := [("/chat/completions", [("post", opCreateChat)])]
    components := none }

/-- A document whose `paths` carries a `$ref` to the undeclared
`#/components/schemas/Missing` (spec §8 fatal-path coverage). -/
def docBrokenRef : OpenAPIDoc :=
  { openapi := some "3.0.0"
    infoTitle := "Test API"
    infoVersion := "1.0.0"
    paths := [("/chat/completions",
      [("post",
        { operationId := some "createChatCompletion"
          tags := ["chat"]
          parameters := []
          requestBody := some (.refNode "#/components/schemas/Missing")
          responses := [] })])]
    components := some { schemas := [], securitySchemes := [] } }

/-- A document whose `openapi` field is present but the empty string. -/
def docEmptyOpenapi : OpenAPIDoc :=
  { openapi := some ""
    infoTitle := "Test API"
    infoVersion := "1.0.0"
    paths := []
    components := none }

/-- A generator config with a usable API key. -/
def configWithKey : Config :=
  { apiUrl := "https://api.openai.com/v1"
    apiKey := "sk-test"
    outputDir := "./generated"
    generateCloudflareWorker := true }

/-- Worker environment with a one-request-per-minute rate limit. -/
def envRL : WEnv :=
  { apiKey := some "sk-test"
    allowedOrigins := none
    rateLimitPerMinute := some "1"
    debug := none }

/-- An authorised request to an unknown route group. -/
def reqNope : WRequest :=
  { method := "GET"
    pathname := "/nope/x"
    authHeader := some "Bearer tok"
    clientIP := "1.2.3.4" }

/-- A fixed dispatcher standing in for the generated group workers. -/
def dispatchStub : String → WRequest → WResponse :=
  fun group _ => { status := 200, body := .handled group }

/-! ## Theorems -/

/-- Every character produced by the first replace is in the identifier class. -/
theorem mapIdent_mem {c : Char} {l : List Char} (h : c ∈ mapIdent l) : isIdentChar c = true := by
  simp only [mapIdent, List.mem_map] at h
  obtain ⟨a, _, ha⟩ := h
  by_cases hid : isIdentChar a = true
  · rw [← ha]; simp [hid]
  · rw [← ha]; simp [hid]; decide

/-- Characters of the second replace's output: the prefixed `_` or a
character of its input. -/
theorem guardLeadingDigit_mem {c : Char} {l : List Char} (h : c ∈ guardLeadingDigit l) :
    c = '_' ∨ c ∈ l := by
  cases l with
  | nil => simp [guardLeadingDigit] at h
  | cons a rest =>
    by_cases hd : isDigitChar a = true
    · simp [guardLeadingDigit, hd] at h
      rcases h with h | h | h
      · exact Or.inl h
      · exact Or.inr (by simp [h])
      · exact Or.inr (by simp [h])
    · simp [guardLeadingDigit, hd] at h
      rcases h with h | h
      · exact Or.inr (by simp [h])
      · exact Or.inr (by simp [h])

/-- C10 (functional correctness of `sanitizeIdentifier`): for every input
string the result is non-empty, consists only of ASCII letters, digits and
underscores, never starts with a digit, and the empty string maps to
`_empty`. -/
theorem sanitizeIdentifier_spec (name : String) :
    sanitizeIdentifier name ≠ "" ∧
    (∀ c ∈ (sanitizeIdentifier name).data, isIdentChar c = true) ∧
    (∀ c, (sanitizeIdentifier name).data.head? = some c → isDigitChar c = false) ∧
    sanitizeIdentifier "" = "_empty" := by
  refine ⟨?_, ?_, ?_, rfl⟩
  · intro h
    have hd := congrArg String.data h
    simp only [sanitizeIdentifier] at hd
    have : sanitizeChars name.data = [] := hd
    unfold sanitizeChars at this
    cases hg : guardLeadingDigit (mapIdent name.data) with
    | nil => rw [hg] at this; simp [fillEmpty] at this
    | cons c rest => rw [hg] at this; simp [fillEmpty] at this
  · intro c hc
    simp only [sanitizeIdentifier] at hc
    unfold sanitizeChars at hc
    cases hg : guardLeadingDigit (mapIdent name.data) with
    | nil =>
      rw [hg] at hc
      simp [fillEmpty] at hc
      rcases hc with h | h | h | h | h | h <;> (rw [h]; decide)
    | cons a rest =>
      rw [hg] at hc
      simp only [fillEmpty] at hc
      have : c ∈ guardLeadingDigit (mapIdent name.data) := by rw [hg]; exact hc
      rcases guardLeadingDigit_mem this with h | h
      · rw [h]; decide
      · exact mapIdent_mem h
  · intro c hc
    simp only [sanitizeIdentifier] at hc
    unfold sanitizeChars at hc
    cases hm : mapIdent name.data with
    | nil =>
      rw [hm] at hc
      simp [guardLeadingDigit, fillEmpty] at hc
      rw [← hc]; decide
    | cons a rest =>
      rw [hm] at hc
      by_cases hd : isDigitChar a = true
      · simp [guardLeadingDigit, hd, fillEmpty] at hc
        rw [← hc]; decide
      · simp [guardLeadingDigit, hd, fillEmpty] at hc
        rw [← hc]
        simpa using hd

/-- C5 (error handling of `enhanceWithAI`): for every config, operationId and
failure message, a failing AI call is caught at its call site and converted
to the default placeholder stub for that operationId; `enhanceWithAI` is a
total function (it never throws), so the failure cannot abort the rest of
generation. -/
theorem enhanceWithAI_fail_fallback (config : Config) (operationId msg : String) :
    enhanceWithAI config operationId (AIOutcome.fail msg) = generateBasicStub operationId := by
  unfold enhanceWithAI callAIAPI
  by_cases h : config.apiKey = "" ∨ config.apiKey = "your-api-key-here" <;> simp [h]

/-- C8 (functional correctness of the placeholder handler): for every
operationId the generated placeholder, executed on any request, returns a
structured not-implemented response (status 501) whose body carries that
operationId; the generated text itself also embeds the operationId. -/
theorem stubHandler_not_implemented (operationId : String) (request : StubRequest) :
    (stubHandler operationId request).status = 501 ∧
    (∃ pre post, (stubHandler operationId request).body = pre ++ operationId ++ post) ∧
    (∃ pre post, generateBasicStub operationId = pre ++ operationId ++ post) := by
  refine ⟨rfl, ⟨"\x7b\"message\":\"Not implemented\",\"operation\":\"", "\"\x7d", rfl⟩, ?_⟩
  refine ⟨stubPartA ++ operationId ++ stubPartB ++ operationId ++ stubPartC, stubPartD, ?_⟩
  simp [generateBasicStub, String.append_assoc]

/-- Total length of a generated stub: three copies of the operation id plus
the fixed template. -/
theorem generateBasicStub_length (x : String) :
    (generateBasicStub x).length =
      3 * x.length + (stubPartA.length + stubPartB.length + stubPartC.length + stubPartD.length) := by
  simp [generateBasicStub, String.length_append]
  ring

/-- Distinct operation ids yield distinct stub texts. -/
theorem generateBasicStub_inj {a b : String} (h : generateBasicStub a = generateBasicStub b) :
    a = b := by
  have hlen : a.length = b.length := by
    have hl := congrArg String.length h
    rw [generateBasicStub_length, generateBasicStub_length] at hl
    omega
  have hd := congrArg String.data h
  simp only [generateBasicStub, String.data_append, List.append_assoc] at hd
  have h1 := List.append_cancel_left hd
  have h2 := (List.append_inj h1 (by simpa using hlen)).1
  exact String.ext h2

/-- C9 (behaviour of the missing-content fallback): when the AI API call
completes with an OK status but no `choices[0].message.content`, and an API
key is configured, `enhanceWithAI` returns the placeholder generated for the
literal id `unknown` — not the placeholder for the requested operationId. -/
theorem enhanceWithAI_okNoContent_unknown (config : Config) (operationId : String)
    (hkey : ¬(config.apiKey = "" ∨ config.apiKey = "your-api-key-here"))
    (hop : operationId ≠ "unknown") :
    enhanceWithAI config operationId AIOutcome.okNoContent = generateBasicStub "unknown" ∧
    enhanceWithAI config operationId AIOutcome.okNoContent ≠ generateBasicStub operationId := by
  constructor
  · unfold enhanceWithAI callAIAPI
    simp [hkey]
  · unfold enhanceWithAI callAIAPI
    simp only [hkey, if_false]
    intro hcontr
    exact hop (generateBasicStub_inj hcontr).symm

/-- Witness for C9: with a configured key and the `createChatCompletion`
operation, the missing-content fallback is the `unknown` stub. -/
theorem enhanceWithAI_okNoContent_unknown_witness :
    enhanceWithAI configWithKey "createChatCompletion" AIOutcome.okNoContent
      = generateBasicStub "unknown" ∧
    enhanceWithAI configWithKey "createChatCompletion" AIOutcome.okNoContent
      ≠ generateBasicStub "createChatCompletion" :=
  enhanceWithAI_okNoContent_unknown configWithKey "createChatCompletion"
    (by decide) (by decide)

/-- A known first segment is forwarded to the like-named group worker. -/
theorem routeDecide_known {seg : String} (h : seg ∈ knownRoutes) :
    routeDecide seg = RouteDecision.forward seg := by
  simp only [knownRoutes, List.mem_cons, List.mem_singleton, List.not_mem_nil, or_false] at h
  rcases h with h|h|h|h|h|h|h|h|h|h|h|h|h|h|h|h|h|h <;> (subst h; rfl)

/-- An unknown first segment falls to the 404 branch listing `knownRoutes`. -/
theorem routeDecide_unknown {seg : String} (h : seg ∉ knownRoutes) :
    routeDecide seg = RouteDecision.notFound knownRoutes := by
  simp only [knownRoutes, List.mem_cons, List.mem_singleton, List.not_mem_nil, or_false,
    not_or] at h
  obtain ⟨n1, n2, n3, n4, n5, n6, n7, n8, n9, n10, n11, n12, n13, n14, n15, n16, n17, n18⟩ := h
  unfold routeDecide
  rw [if_neg n1, if_neg n2, if_neg n3, if_neg n4, if_neg n5, if_neg n6, if_neg n7, if_neg n8,
    if_neg n9, if_neg n10, if_neg n11, if_neg n12, if_neg n13, if_neg n14, if_neg n15,
    if_neg n16, if_neg n17, if_neg n18]

/-- C7 (aggregator routing): the routing decision depends only on the first
path segment of the request URL; a segment equal to a known group name is
forwarded to that group's dispatcher, and any other segment yields a
not-found decision listing all known group names. -/
theorem routeRequest_spec (p q : String) :
    (firstSeg p = firstSeg q → routeRequest p = routeRequest q) ∧
    (firstSeg p ∈ knownRoutes → routeRequest p = RouteDecision.forward (firstSeg p)) ∧
    (firstSeg p ∉ knownRoutes → routeRequest p = RouteDecision.notFound knownRoutes) := by
  refine ⟨?_, ?_, ?_⟩
  · intro h; unfold routeRequest; rw [h]
  · intro h; unfold routeRequest; exact routeDecide_known h
  · intro h; unfold routeRequest; exact routeDecide_unknown h

/-- Witness for C7: `/unknown-group/anything` gets the aggregator's 404
listing the known groups (with `chat` among them), and `/chat/completions`
is forwarded to the `chat` worker. -/
theorem routeRequest_spec_witness :
    routeRequest "/unknown-group/anything" = RouteDecision.notFound knownRoutes ∧
    routeRequest "/chat/completions" = RouteDecision.forward "chat" ∧
    "chat" ∈ knownRoutes := by
  refine ⟨(routeRequest_spec "/unknown-group/anything" "x").2.2 (by decide), ?_, by decide⟩
  have h := (routeRequest_spec "/chat/completions" "x").2.1 (by decide)
  rw [h]
  decide

/-- C6 counterexample: a parsed document whose `openapi` field is present
but the empty string is rejected by the parse boundary, not returned
unchanged — the JS guard tests truthiness, not presence. -/
theorem parseOpenApiYaml_present_empty_rejected :
    (docEmptyOpenapi.openapi).isSome = true ∧
    parseOpenApiYaml (some docEmptyOpenapi) =
      Except.error (GenError.parseError "Invalid OpenAPI YAML file: Missing required fields.") :=
  ⟨rfl, rfl⟩

/-- C6 amended: a parsed document that is null, lacks the `openapi` field or
has it empty is rejected with a fatal parse error before any resolution or
emission begins (the whole run returns that error and writes nothing); a
document whose `openapi` field is present and non-empty is returned
unchanged. -/
theorem parseOpenApiYaml_spec (parsed : Option OpenAPIDoc) (writeOk : String → Bool)
    (outputDir : String) (fs : FS) :
    ((parsed = none ∨ (∃ d, parsed = some d ∧ (d.openapi = none ∨ d.openapi = some ""))) →
      ∃ msg, parseOpenApiYaml parsed = Except.error (GenError.parseError msg) ∧
        generateFromYaml writeOk outputDir parsed fs = (Except.error (GenError.parseError msg), fs)) ∧
    (∀ d s, parsed = some d → d.openapi = some s → s ≠ "" →
      parseOpenApiYaml parsed = Except.ok d) := by
  constructor
  · intro h
    refine ⟨"Invalid OpenAPI YAML file: Missing required fields.", ?_⟩
    have hp : parseOpenApiYaml parsed =
        Except.error (GenError.parseError "Invalid OpenAPI YAML file: Missing required fields.") := by
      rcases h with h | ⟨d, hd, h⟩
      · rw [h]; rfl
      · rw [hd]; unfold parseOpenApiYaml
        rcases h with h | h <;> simp [h]
    exact ⟨hp, by unfold generateFromYaml; rw [hp]⟩
  · intro d s hd hs hne
    rw [hd]; unfold parseOpenApiYaml
    simp [hs, hne]

/-- Witness for C6 amended: a null load is fatal with nothing written, and
the minimal valid document passes the parse boundary unchanged. -/
theorem parseOpenApiYaml_spec_witness :
    (∃ msg, parseOpenApiYaml (none : Option OpenAPIDoc)
        = Except.error (GenError.parseError msg) ∧
      generateFromYaml (fun _ => true) "out" none [] = (Except.error (GenError.parseError msg), [])) ∧
    parseOpenApiYaml (some docMinimal) = Except.ok docMinimal :=
  ⟨(parseOpenApiYaml_spec none (fun _ => true) "out" []).1 (Or.inl rfl),
   (parseOpenApiYaml_spec (some docMinimal) (fun _ => true) "out" []).2 docMinimal "3.0.0"
     rfl rfl (by decide)⟩

/-- C1 (determinism): the whole generation pipeline is a pure function of
its input, so two runs on byte-identical input text produce byte-identical
artifact sets — the same run result, the same ordered relative-path list and
the same content for each artifact. -/
theorem generateRun_deterministic (writeOk : String → Bool) (outputDir : String)
    (yamlLoad : String → Option OpenAPIDoc) (input1 input2 : String) (fs : FS)
    (h : input1 = input2) :
    generateRun writeOk outputDir yamlLoad input1 fs
      = generateRun writeOk outputDir yamlLoad input2 fs ∧
    artifactPaths (generateRun writeOk outputDir yamlLoad input1 fs).1
      = artifactPaths (generateRun writeOk outputDir yamlLoad input2 fs).1 ∧
    artifactContents (generateRun writeOk outputDir yamlLoad input1 fs).1
      = artifactContents (generateRun writeOk outputDir yamlLoad input2 fs).1 := by
  subst h
  exact ⟨rfl, rfl, rfl⟩

/-- Witness for C1: two runs on the same concrete input agree. -/
theorem generateRun_deterministic_witness :
    generateRun (fun _ => true) "out" (fun _ => some docMinimal) "openapi: 3.0.0" []
      = generateRun (fun _ => true) "out" (fun _ => some docMinimal) "openapi: 3.0.0" [] ∧
    artifactPaths (generateRun (fun _ => true) "out" (fun _ => some docMinimal) "openapi: 3.0.0" []).1
      = artifactPaths (generateRun (fun _ => true) "out" (fun _ => some docMinimal) "openapi: 3.0.0" []).1 ∧
    artifactContents (generateRun (fun _ => true) "out" (fun _ => some docMinimal) "openapi: 3.0.0" []).1
      = artifactContents (generateRun (fun _ => true) "out" (fun _ => some docMinimal) "openapi: 3.0.0" []).1 :=
  generateRun_deterministic (fun _ => true) "out" (fun _ => some docMinimal)
    "openapi: 3.0.0" "openapi: 3.0.0" [] rfl

/-- C2 counterexample: a run in which writing the second artifact fails ends
in a fatal error, yet the first artifact is already on disk — the run is
not atomic with respect to write failures. -/
theorem generateFromYaml_leftover_write :
    ((generateFromYaml (fun p => p != "out/chat_worker.ts") "out" (some docMinimal) []).1).isOk
      = false ∧
    (generateFromYaml (fun p => p != "out/chat_worker.ts") "out" (some docMinimal) []).2 ≠ [] := by
  constructor
  · decide
  · decide

/-- The write loop writes an initial prefix of the artifact list: the files
already written stay written when a later write fails, and a successful loop
writes them all. -/
theorem writeGeneratedFiles_writes_a_front (writeOk : String → Bool) (outputDir : String) :
    ∀ (files : List GeneratedFile) (fs : FS),
      ∃ k, (writeGeneratedFiles writeOk outputDir files fs).2
            = fs ++ (files.take k).map (fun f => (outputDir ++ "/" ++ f.path, f.content)) ∧
        ((writeGeneratedFiles writeOk outputDir files fs).1.isOk = true → k = files.length) := by
  intro files
  induction files with
  | nil =>
    intro fs
    exact ⟨0, by simp [writeGeneratedFiles], fun _ => rfl⟩
  | cons file rest ih =>
    intro fs
    by_cases hw : writeOk (outputDir ++ "/" ++ file.path) = true
    · obtain ⟨k, hk, hok⟩ := ih (fs ++ [(outputDir ++ "/" ++ file.path, file.content)])
      refine ⟨k + 1, ?_, ?_⟩
      · simp only [writeGeneratedFiles, hw, if_true]
        rw [hk]
        simp [List.append_assoc]
      · intro hsucc
        simp only [writeGeneratedFiles, hw, if_true] at hsucc
        rw [hok hsucc]
        simp
    · refine ⟨0, ?_, ?_⟩
      · simp [writeGeneratedFiles, hw]
      · intro hsucc
        simp [writeGeneratedFiles, hw, Except.isOk, Except.toBool] at hsucc

/-- C2 amended: a fatal error at the parse boundary or during generation
aborts the run before anything is written (zero artifacts on disk); once
writing has started, the files are written one by one in order, and a write
failure aborts the run leaving exactly the files written before the failure
— there is no rollback, so partial output is observable on write failure. -/
theorem generateFromYaml_write_behaviour (writeOk : String → Bool) (outputDir : String)
    (parsed : Option OpenAPIDoc) (fs : FS) :
    (∀ e, parseOpenApiYaml parsed = Except.error e →
      generateFromYaml writeOk outputDir parsed fs = (Except.error e, fs)) ∧
    (∀ d e, parseOpenApiYaml parsed = Except.ok d → generateArtifacts d = Except.error e →
      generateFromYaml writeOk outputDir parsed fs = (Except.error e, fs)) ∧
    (∀ d files, parseOpenApiYaml parsed = Except.ok d → generateArtifacts d = Except.ok files →
      ∃ k, (generateFromYaml writeOk outputDir parsed fs).2
            = fs ++ (files.take k).map (fun f => (outputDir ++ "/" ++ f.path, f.content)) ∧
        ((generateFromYaml writeOk outputDir parsed fs).1.isOk = true → k = files.length)) := by
  refine ⟨?_, ?_, ?_⟩
  · intro e he
    simp only [generateFromYaml, he]
  · intro d e hp hg
    simp only [generateFromYaml, hp, hg]
  · intro d files hp hg
    obtain ⟨k, hk, hok⟩ := writeGeneratedFiles_writes_a_front writeOk outputDir files fs
    refine ⟨k, ?_, ?_⟩
    · simp only [generateFromYaml, hp, hg]
      rcases hw : writeGeneratedFiles writeOk outputDir files fs with ⟨res, fs'⟩
      cases res <;> simp_all
    · intro hsucc
      apply hok
      simp only [generateFromYaml, hp, hg] at hsucc
      rcases hw : writeGeneratedFiles writeOk outputDir files fs with ⟨res, fs'⟩
      cases res <;> simp_all [Except.isOk, Except.toBool]

/-- Witness for C2 amended: a null parse result aborts the run with nothing
written. -/
theorem generateFromYaml_write_behaviour_witness :
    generateFromYaml (fun _ => true) "out" none []
      = (Except.error (GenError.parseError "Invalid OpenAPI YAML file: Missing required fields."), []) :=
  (generateFromYaml_write_behaviour (fun _ => true) "out" none []).1 _ rfl

/-- A failing resolution of an intra-document pointer is always a
`BrokenReference` carrying that pointer (external-file pointers are the only
source of `UnsupportedReference`). -/
theorem resolveRef_intra_error {doc : OpenAPIDoc} {pointer : String}
    (hin : isIntraDocument pointer = true)
    (hfail : (resolveRef doc pointer).isOk = false) :
    resolveRef doc pointer = Except.error (GenError.brokenReference pointer) := by
  unfold resolveRef at hfail ⊢
  rw [if_pos hin] at hfail ⊢
  split at hfail
  · rename_i name heq
    cases hcomp : doc.components with
    | none => simp [hcomp]
    | some comps =>
      cases hlook : alistLookup name comps.schemas with
      | none => simp [hcomp, hlook]
      | some s => simp [hcomp, hlook, Except.isOk, Except.toBool] at hfail
  · rename_i name heq
    cases hcomp : doc.components with
    | none => simp [hcomp]
    | some comps =>
      by_cases hmem : name ∈ comps.securitySchemes
      · simp [hcomp, hmem, Except.isOk, Except.toBool] at hfail
      · simp [hcomp, hmem]
  · rfl

/-- Resolving a reference list that contains a failure, with every pointer
intra-document, stops at the first broken pointer and reports it. -/
theorem checkRefList_broken (doc : OpenAPIDoc) :
    ∀ (refList : List String),
      (∀ r ∈ refList, isIntraDocument r = true) →
      (∃ r ∈ refList, (resolveRef doc r).isOk = false) →
      ∃ r, r ∈ refList ∧ (resolveRef doc r).isOk = false ∧
        checkRefList doc refList = Except.error (GenError.brokenReference r) := by
  intro refList
  induction refList with
  | nil => intro _ hex; simp at hex
  | cons r rest ih =>
    intro hall hex
    cases hres : (resolveRef doc r).isOk with
    | false =>
      have hbrk := resolveRef_intra_error (hall r (by simp)) hres
      exact ⟨r, by simp, hres, by simp only [checkRefList, hbrk]⟩
    | true =>
      have hrest : ∃ s ∈ rest, (resolveRef doc s).isOk = false := by
        rcases hex with ⟨s, hs, hsf⟩
        rcases List.mem_cons.mp hs with heq | hmem
        · subst heq; rw [hres] at hsf; cases hsf
        · exact ⟨s, hmem, hsf⟩
      obtain ⟨s, hsmem, hsf, hclist⟩ := ih (fun x hx => hall x (by simp [hx])) hrest
      refine ⟨s, by simp [hsmem], hsf, ?_⟩
      have : ∃ v, resolveRef doc r = Except.ok v := by
        cases hv : resolveRef doc r with
        | ok v => exact ⟨v, rfl⟩
        | error e => rw [hv] at hres; simp [Except.isOk, Except.toBool] at hres
      obtain ⟨v, hv⟩ := this
      simp only [checkRefList, hv]
      exact hclist

/-- C4 (fatal-path coverage of broken references): every valid document one
of whose reachable references (from `paths` or `components.schemas`, all
intra-document) fails to resolve makes generation fail with a
`BrokenReference` error carrying an offending pointer string, and the run
writes zero artifacts. -/
theorem generateFromYaml_broken_reference (doc : OpenAPIDoc) (writeOk : String → Bool)
    (outputDir : String) (fs : FS)
    (hparse : parseOpenApiYaml (some doc) = Except.ok doc)
    (hall : ∀ r ∈ collectDocRefs doc, isIntraDocument r = true)
    (hex : ∃ r ∈ collectDocRefs doc, (resolveRef doc r).isOk = false) :
    ∃ r, r ∈ collectDocRefs doc ∧ (resolveRef doc r).isOk = false ∧
      generateArtifacts doc = Except.error (GenError.brokenReference r) ∧
      generateFromYaml writeOk outputDir (some doc) fs
        = (Except.error (GenError.brokenReference r), fs) := by
  obtain ⟨r, hmem, hfail, hlist⟩ := checkRefList_broken doc (collectDocRefs doc) hall hex
  have hgen : generateArtifacts doc = Except.error (GenError.brokenReference r) := by
    simp only [generateArtifacts, generateTypes, checkDocRefs, hlist]
  exact ⟨r, hmem, hfail, hgen, by simp only [generateFromYaml, hparse, hgen]⟩

/-- Witness for C4: the spec §8 fatal-path document — `paths` referencing
the undeclared `#/components/schemas/Missing` — fails with `BrokenReference`
and writes nothing. -/
theorem generateFromYaml_broken_reference_witness :
    ∃ r, r ∈ collectDocRefs docBrokenRef ∧ (resolveRef docBrokenRef r).isOk = false ∧
      generateArtifacts docBrokenRef = Except.error (GenError.brokenReference r) ∧
      generateFromYaml (fun _ => true) "out" (some docBrokenRef) []
        = (Except.error (GenError.brokenReference r), []) :=
  generateFromYaml_broken_reference docBrokenRef (fun _ => true) "out" []
    rfl (by decide) (by decide)

/-- C3 counterexample: the aggregator retains state between invocations in
the module-level `rateLimitStore` — with a limit of 1, two invocations with
identical (request, environment, time) arguments receive different responses
(404 from routing, then 429 from the rate limiter), because of the
invocation that happened in between. -/
theorem workerFetch_not_stateless :
    (workerFetch dispatchStub reqNope envRL 0 []).1
      ≠ (workerFetch dispatchStub reqNope envRL 0
          ((workerFetch dispatchStub reqNope envRL 0 []).2)).1 := by
  decide

/-- The deny/allow outcome of `checkRateLimit` depends on the store only
through the entry at the client's current window key. -/
theorem checkRateLimit_fst_local (clientIP : String) (env : WEnv) (now : Nat)
    (s1 s2 : RateStore)
    (h : storeGet (windowKeyOf clientIP now) s1 = storeGet (windowKeyOf clientIP now) s2) :
    (checkRateLimit clientIP env now s1).1 = (checkRateLimit clientIP env now s2).1 := by
  simp only [checkRateLimit, h]
  cases parseIntLeading ((env.rateLimitPerMinute).getD "60") with
  | none => rfl
  | some l =>
    by_cases hc :
        ((storeGet (windowKeyOf clientIP now) s2).getD (0, now / 60000 * 60000 + 60000)).1 ≥ l
    · simp [hc]
    · simp [hc]

/-- C3 amended: the aggregator's response is a pure function of (request,
environment, current time, rate-limit store); the only internal state it
reads is the client's current-window counter, so two invocations whose
stores agree on that one entry return identical responses — but the store
is mutated across invocations, so identical (request, environment)
invocations may still differ once the window limit is reached. -/
theorem workerFetch_response_local (dispatch : String → WRequest → WResponse)
    (req : WRequest) (env : WEnv) (now : Nat) (s1 s2 : RateStore)
    (h : storeGet (windowKeyOf req.clientIP now) s1
          = storeGet (windowKeyOf req.clientIP now) s2) :
    (workerFetch dispatch req env now s1).1 = (workerFetch dispatch req env now s2).1 := by
  have hrl := checkRateLimit_fst_local req.clientIP env now s1 s2 h
  unfold workerFetch
  by_cases hm : req.method = "OPTIONS"
  · simp [hm]
  · simp only [hm, if_false]
    by_cases hh : req.pathname = "/health" ∨ req.pathname = "/health/"
    · simp [hh]
    · simp only [hh, if_false]
      cases hv : validateAuth req env with
      | some msg => rfl
      | none =>
        rcases hc1 : checkRateLimit req.clientIP env now s1 with ⟨o1, st1⟩
        rcases hc2 : checkRateLimit req.clientIP env now s2 with ⟨o2, st2⟩
        have ho : o1 = o2 := by
          have := hrl
          rw [hc1, hc2] at this
          exact this
        subst ho
        cases o1 with
        | some retryAfter => rfl
        | none => cases routeRequest req.pathname <;> rfl

/-- Witness for C3 amended: two stores agreeing on the client's window entry
yield the same response, here a 404 from routing. -/
theorem workerFetch_response_local_witness :
    (workerFetch dispatchStub reqNope envRL 0 []).1
      = (workerFetch dispatchStub reqNope envRL 0 [("9.9.9.9:0", 5, 60000)]).1 :=
  workerFetch_response_local dispatchStub reqNope envRL 0 [] [("9.9.9.9:0", 5, 60000)]
    (by decide)

end OpenapiCodegen
